import Mathlib

/-!
Shallow embedding of the dashboard's data-to-view rendering and filtering
pipeline from `docs/app.js`, together with proofs of its specification.

Modelling conventions:
* JSON numeric literals are modelled exactly as decimal mantissa/exponent
  pairs (`JSVal.num m e` denotes `m * 10 ^ (-e)`); `null`, `undefined` and
  `NaN` are separate constructors, since the formatters branch on them.
* ISO timestamps are modelled by their epoch value (an `Int`): the code only
  ever compares `new Date(ts)` values, which is comparison of epoch numbers.
* `Array.prototype.sort` (stable since ES2019) applied to a consistent
  comparator `cmp` is modelled by `List.insertionSort r` with
  `r a b ↔ cmp a b ≤ 0`: any stable sort by a total preorder produces the
  same list.  `sort` mutates its receiver in place, so when a view's filter
  is `'all'` (where the code sorts the state array itself, not a copy) the
  model threads the reordered array back into the state.
* DOM fragments are modelled as view values: the text of empty-state / error
  messages is kept verbatim, cards and rows keep each interpolated field.
-/

open List

inductive Status where
  | pending
  | completed
  | skipped
deriving DecidableEq

inductive Source where
  | imported
  | recommendation
  | manual
deriving DecidableEq

/-- The recommendation-status filter (`state.currentFilter`): `'all'` or a
concrete status string. -/
inductive RecFilter where
  | all
  | byStatus (st : Status)
deriving DecidableEq

/-- The experiment-source filter (`state.currentSource`): `'all'` or a
concrete source string. -/
inductive SrcFilter where
  | all
  | bySource (src : Source)
deriving DecidableEq

/-- A JavaScript field value as it occurs in the fetched JSON: a numeric
decimal literal `m * 10 ^ (-e)`, `null`, a missing field (`undefined`), or
`NaN`. -/
inductive JSVal where
  | null
  | undefined
  | nan
  | num (mant : Int) (exp : Nat)
deriving DecidableEq

def padLeftZeros (d : Nat) (s : String) : String :=
  String.mk (List.replicate (d - s.length) '0') ++ s

/-- `toFixedNN m e d`: ECMA `Number.prototype.toFixed d` on the nonnegative
decimal value `m * 10 ^ (-e)`.  ECMA rounds to the integer `n` minimising
`|n / 10 ^ d - x|`, picking the larger `n` on ties; for nonnegative `x` that
is `⌊x * 10 ^ d + 1 / 2⌋ = (2 * m * 10 ^ d + 10 ^ e) / (2 * 10 ^ e)`. -/
def toFixedNN (m : Nat) (e : Nat) (d : Nat) : String :=
  let n : Nat := (2 * m * 10 ^ d + 10 ^ e) / (2 * 10 ^ e)
  if d = 0 then toString n
  else toString (n / 10 ^ d) ++ "." ++ padLeftZeros d (toString (n % 10 ^ d))

/-- ECMA `toFixed`: a negative value is formatted as `"-"` followed by the
rendering of its negation. -/
def toFixed (m : Int) (e : Nat) (d : Nat) : String :=
  if m < 0 then "-" ++ toFixedNN (-m).toNat e d else toFixedNN m.toNat e d

/-- The `formatNum` closure of `createRecommendationCard`:
`if (n === null || n === undefined) return '--'; return Number(n).toFixed(decimals)`.
Note there is no `isNaN` check here, and `Number(NaN).toFixed(d)` is `"NaN"`. -/
def formatNumCard (n : JSVal) (decimals : Nat) : String :=
  match n with
  | JSVal.null => "--"
  | JSVal.undefined => "--"
  | JSVal.nan => "NaN"
  | JSVal.num m e => toFixed m e decimals

/-- The `formatNum` closure of `createExperimentRow`:
`if (n === null || n === undefined || isNaN(n)) return '--'; ...`. -/
def formatNumRow (n : JSVal) (decimals : Nat) : String :=
  match n with
  | JSVal.null => "--"
  | JSVal.undefined => "--"
  | JSVal.nan => "--"
  | JSVal.num m e => toFixed m e decimals

/-- JavaScript `n * 100` for the `p_feasible` display: `null * 100 === 0`,
`undefined * 100` and `NaN * 100` are `NaN`. -/
def timesHundred : JSVal → JSVal
  | JSVal.null => JSVal.num 0 0
  | JSVal.undefined => JSVal.nan
  | JSVal.nan => JSVal.nan
  | JSVal.num m e => JSVal.num (m * 100) e

structure Conditions where
  Temp : JSVal
  Time : JSVal
  VOacac : JSVal
  DDT : JSVal
  OAm : JSVal
deriving DecidableEq

structure Predictions where
  size_mu : JSVal
  size_std : JSVal
  gsd_mu : JSVal
  gsd_std : JSVal
  sq_mu : JSVal
  sq_std : JSVal
  p_feasible : JSVal
deriving DecidableEq

structure RecTarget where
  size : JSVal
  tolerance : JSVal
deriving DecidableEq

/-- A recommendation record.  `rec.conditions || {}` (and likewise
`predictions`, `target`) is modelled by keeping the sub-record always
present, an absent object being the record whose fields are all
`undefined`. -/
structure Recommendation where
  rec_id : String
  status : Status
  conditions : Conditions
  predictions : Predictions
  target : RecTarget
  timestamp : Int
  completed_timestamp : Option Int
  skip_reason : Option String
deriving DecidableEq

structure Experiment where
  exp_id : String
  Temp : JSVal
  Time : JSVal
  VOacac : JSVal
  DDT : JSVal
  OAm : JSVal
  Size : JSVal
  GSD : JSVal
  Squareness : JSVal
  source : Source
deriving DecidableEq

/-- The view-model of one rendered recommendation card: every interpolated
value of the `createRecommendationCard` template. -/
structure RecCard where
  rec_id : String
  status : Status
  targetSize : String
  targetTolerance : String
  condTemp : String
  condTime : String
  condVOacac : String
  condDDT : String
  condOAm : String
  predSize : String
  predSizeStd : String
  predGSD : String
  predGSDStd : String
  predSq : String
  predSqStd : String
  predPFeasible : String
  skipReason : Option String
  createdTs : Int
  completedTs : Option Int
deriving DecidableEq

def createRecommendationCard (rec : Recommendation) : RecCard :=
  { rec_id := rec.rec_id
    status := rec.status
    targetSize := formatNumCard rec.target.size 1
    targetTolerance := formatNumCard rec.target.tolerance 1
    condTemp := formatNumCard rec.conditions.Temp 1
    condTime := formatNumCard rec.conditions.Time 1
    condVOacac := formatNumCard rec.conditions.VOacac 2
    condDDT := formatNumCard rec.conditions.DDT 2
    condOAm := formatNumCard rec.conditions.OAm 2
    predSize := formatNumCard rec.predictions.size_mu 1
    predSizeStd := formatNumCard rec.predictions.size_std 1
    predGSD := formatNumCard rec.predictions.gsd_mu 3
    predGSDStd := formatNumCard rec.predictions.gsd_std 3
    predSq := formatNumCard rec.predictions.sq_mu 3
    predSqStd := formatNumCard rec.predictions.sq_std 3
    predPFeasible := formatNumCard (timesHundred rec.predictions.p_feasible) 1
    skipReason := rec.skip_reason
    createdTs := rec.timestamp
    completedTs := rec.completed_timestamp }

/-- The view-model of one rendered experiment table row. -/
structure ExpRow where
  exp_id : String
  temp : String
  time : String
  voacac : String
  ddt : String
  oam : String
  size : String
  gsd : String
  squareness : String
  sourceTag : Source
deriving DecidableEq

def createExperimentRow (e : Experiment) : ExpRow :=
  { exp_id := e.exp_id
    temp := formatNumRow e.Temp 0
    time := formatNumRow e.Time 1
    voacac := formatNumRow e.VOacac 2
    ddt := formatNumRow e.DDT 2
    oam := formatNumRow e.OAm 2
    size := formatNumRow e.Size 1
    gsd := formatNumRow e.GSD 3
    squareness := formatNumRow e.Squareness 3
    sourceTag := e.source }

/-- Content of the `recommendations-list` container. -/
inductive RecPanel where
  | errorState (msg : String)
  | emptyState (msg : String)
  | cards (cards : List RecCard)
deriving DecidableEq

/-- Content of the `experiments-tbody` container. -/
inductive ExpPanel where
  | errorState (msg : String)
  | emptyState (msg : String)
  | rows (rows : List ExpRow)
deriving DecidableEq

/-- The rendered DOM pieces the application writes to. -/
structure Dashboard where
  totalExperiments : String
  pendingCount : String
  completedCount : String
  modelAccuracy : String
  pendingBadge : String
  completedBadge : String
  skippedBadge : String
  recPanel : RecPanel
  expPanel : ExpPanel
deriving DecidableEq

structure AppState where
  experiments : List Experiment
  recommendations : List Recommendation
  currentFilter : RecFilter
  currentSource : SrcFilter
  isLoading : Bool
deriving DecidableEq

/-- The initial `state` literal of `app.js`. -/
def state : AppState :=
  { experiments := []
    recommendations := []
    currentFilter := RecFilter.byStatus Status.pending
    currentSource := SrcFilter.all
    isLoading := true }

def statusStr : Status → String
  | Status.pending => "pending"
  | Status.completed => "completed"
  | Status.skipped => "skipped"

def srcStr : Source → String
  | Source.imported => "imported"
  | Source.recommendation => "recommendation"
  | Source.manual => "manual"

/-- `state.currentFilter === 'all' ? '' : state.currentFilter` -/
def recFilterLabel : RecFilter → String
  | RecFilter.all => ""
  | RecFilter.byStatus st => statusStr st

/-- Text of the recommendations empty-state `<p>`:
`No ${state.currentFilter === 'all' ? '' : state.currentFilter} recommendations found.` -/
def recEmptyMsg (f : RecFilter) : String :=
  "No " ++ recFilterLabel f ++ " recommendations found."

/-- Text of the experiments empty-state cell (a fixed string in the code). -/
def expEmptyMsg : String := "No experiments found for the selected source."

def loadErrorMsg : String :=
  "Unable to load data. Make sure the JSON files are in the data/ folder."

/-- `showError` replaces both containers by the error fragment. -/
def showError (msg : String) (d : Dashboard) : Dashboard :=
  { d with recPanel := RecPanel.errorState msg, expPanel := ExpPanel.errorState msg }

def updateStats (s : AppState) (d : Dashboard) : Dashboard :=
  let pending := s.recommendations.filter (fun r => r.status = Status.pending)
  let completed := s.recommendations.filter (fun r => r.status = Status.completed)
  { d with
    totalExperiments := toString s.experiments.length
    pendingCount := toString pending.length
    completedCount := toString completed.length
    modelAccuracy :=
      toString (s.experiments.filter (fun e => e.source = Source.imported)).length ++ "/" ++
      toString (s.experiments.filter (fun e => e.source = Source.recommendation)).length ++ "/" ++
      toString (s.experiments.filter (fun e => e.source = Source.manual)).length }

def updateBadges (s : AppState) (d : Dashboard) : Dashboard :=
  { d with
    pendingBadge := toString (s.recommendations.filter (fun r => r.status = Status.pending)).length
    completedBadge := toString (s.recommendations.filter (fun r => r.status = Status.completed)).length
    skippedBadge := toString (s.recommendations.filter (fun r => r.status = Status.skipped)).length }

/-- The comparator `(a, b) => new Date(b.timestamp) - new Date(a.timestamp)`
places `a` no later than `b` exactly when it is `≤ 0`, i.e. when
`b.timestamp ≤ a.timestamp`. -/
def recBefore (a b : Recommendation) : Prop := b.timestamp ≤ a.timestamp

instance decRecBefore : DecidableRel recBefore :=
  fun a b => Int.decLe b.timestamp a.timestamp

instance : IsTotal Recommendation recBefore :=
  ⟨fun a b => Int.le_total b.timestamp a.timestamp⟩

instance : IsTrans Recommendation recBefore :=
  ⟨fun _ _ _ hab hbc => le_trans hbc hab⟩

/-- `parseInt(exp_id.replace(/\D/g, ''))`: the numeric value of the digit
characters of the id, read left to right. -/
def digitsToNat (l : List Char) : Nat :=
  l.foldl (fun n c => 10 * n + (c.toNat - 48)) 0

/-- The sort key of `updateExperimentsTable`:
`parseInt(exp_id.replace(/\D/g, '')) || 0`; `parseInt('')` is `NaN`, so an
id without digits yields `0`. -/
def expKey (e : Experiment) : Nat :=
  let ds := e.exp_id.toList.filter Char.isDigit
  if ds.isEmpty then 0 else digitsToNat ds

/-- The comparator `(a, b) => numA - numB` places `a` no later than `b`
exactly when `expKey a ≤ expKey b`. -/
def expBefore (a b : Experiment) : Prop := expKey a ≤ expKey b

instance decExpBefore : DecidableRel expBefore :=
  fun a b => Nat.decLe (expKey a) (expKey b)

instance : IsTotal Experiment expBefore :=
  ⟨fun a b => Nat.le_total (expKey a) (expKey b)⟩

instance : IsTrans Experiment expBefore :=
  ⟨fun _ _ _ hab hbc => le_trans hab hbc⟩

/-- `let filtered = state.recommendations; if (currentFilter !== 'all')
filtered = filtered.filter(...)`. -/
def recFiltered (s : AppState) : List Recommendation :=
  match s.currentFilter with
  | RecFilter.all => s.recommendations
  | RecFilter.byStatus st => s.recommendations.filter (fun r => r.status = st)

/-- `filtered.sort((a, b) => new Date(b.timestamp) - new Date(a.timestamp))`. -/
def recSorted (s : AppState) : List Recommendation :=
  (recFiltered s).insertionSort recBefore

/-- `updateRecommendations`.  When `currentFilter === 'all'`, `filtered`
aliases `state.recommendations`, so the in-place `sort` also reorders the
state array; the returned `AppState` carries that mutation. -/
def updateRecommendations (s : AppState) (d : Dashboard) : AppState × Dashboard :=
  let sorted := recSorted s
  let s' :=
    match s.currentFilter with
    | RecFilter.all => { s with recommendations := sorted }
    | RecFilter.byStatus _ => s
  let d' :=
    if sorted.isEmpty then
      { d with recPanel := RecPanel.emptyState (recEmptyMsg s.currentFilter) }
    else
      { d with recPanel := RecPanel.cards (sorted.map createRecommendationCard) }
  (s', d')

/-- `let filtered = state.experiments; if (currentSource !== 'all')
filtered = filtered.filter(...)`. -/
def expFiltered (s : AppState) : List Experiment :=
  match s.currentSource with
  | SrcFilter.all => s.experiments
  | SrcFilter.bySource src => s.experiments.filter (fun e => e.source = src)

/-- `filtered.sort((a, b) => numA - numB)`. -/
def expSorted (s : AppState) : List Experiment :=
  (expFiltered s).insertionSort expBefore

/-- `updateExperimentsTable`; the aliasing mutation mirrors
`updateRecommendations`. -/
def updateExperimentsTable (s : AppState) (d : Dashboard) : AppState × Dashboard :=
  let sorted := expSorted s
  let s' :=
    match s.currentSource with
    | SrcFilter.all => { s with experiments := sorted }
    | SrcFilter.bySource _ => s
  let d' :=
    if sorted.isEmpty then
      { d with expPanel := ExpPanel.emptyState expEmptyMsg }
    else
      { d with expPanel := ExpPanel.rows (sorted.map createExperimentRow) }
  (s', d')

/-- `updateUI`: stats, recommendations, experiments table, badges, in code
order. -/
def updateUI (s : AppState) (d : Dashboard) : AppState × Dashboard :=
  let d1 := updateStats s d
  let p2 := updateRecommendations s d1
  let p3 := updateExperimentsTable p2.1 p2.2
  let d4 := updateBadges p3.1 p3.2
  (p3.1, d4)

/-- A fetched response: `ok` status plus the result of `.json()`
(`none` models a body that is not parseable as JSON). -/
structure FetchResult (α : Type) where
  ok : Bool
  json : Option α
deriving DecidableEq

/-- The parsed `experiments.json` document; the `experiments` key may be
missing. -/
structure ExpPayload where
  experiments : Option (List Experiment)
deriving DecidableEq

/-- The parsed `recommendations.json` document. -/
structure RecPayload where
  recommendations : Option (List Recommendation)
deriving DecidableEq

/-- `loadData`: both responses must be `ok` and parseable before anything is
committed to the state; `expData.experiments || []` and
`recData.recommendations || []` default missing keys to `[]`.  Any failure
leaves the state untouched and renders the error fragment in both panels. -/
def loadData (s : AppState) (d : Dashboard)
    (expResponse : FetchResult ExpPayload) (recResponse : FetchResult RecPayload) :
    AppState × Dashboard :=
  if expResponse.ok && recResponse.ok then
    match expResponse.json, recResponse.json with
    | some expData, some recData =>
        updateUI
          { s with
            experiments := expData.experiments.getD []
            recommendations := recData.recommendations.getD []
            isLoading := false } d
    | _, _ => (s, showError loadErrorMsg d)
  else (s, showError loadErrorMsg d)

/-- Click listener of a recommendation filter tab: set `currentFilter`, then
`updateRecommendations()` only. -/
def filterTabClick (s : AppState) (d : Dashboard) (f : RecFilter) : AppState × Dashboard :=
  updateRecommendations { s with currentFilter := f } d

/-- Click listener of an experiment source tab: set `currentSource`, then
`updateExperimentsTable()` only. -/
def sourceTabClick (s : AppState) (d : Dashboard) (src : SrcFilter) : AppState × Dashboard :=
  updateExperimentsTable { s with currentSource := src } d

/-- The predicate `currentFilter === 'all' || r.status === currentFilter`. -/
def statusMatches (f : RecFilter) (r : Recommendation) : Bool :=
  match f with
  | RecFilter.all => true
  | RecFilter.byStatus st => r.status = st

/-- The predicate `currentSource === 'all' || e.source === currentSource`. -/
def srcMatches (f : SrcFilter) (e : Experiment) : Bool :=
  match f with
  | SrcFilter.all => true
  | SrcFilter.bySource src => e.source = src

def recPanelCards : RecPanel → List RecCard
  | RecPanel.cards l => l
  | _ => []

def expPanelRows : ExpPanel → List ExpRow
  | ExpPanel.rows l => l
  | _ => []

/-- `startsWithChars s p`: `p` is an initial segment of `s`. -/
def startsWithChars : List Char → List Char → Bool
  | _, [] => true
  | [], _ :: _ => false
  | c :: cs, d :: ds => c = d && startsWithChars cs ds

/-- `mentionsChars s p`: `p` occurs contiguously somewhere in `s`. -/
def mentionsChars : List Char → List Char → Bool
  | [], pat => pat.isEmpty
  | c :: rest, pat => startsWithChars (c :: rest) pat || mentionsChars rest pat

/-- A display string mentions a label when the label occurs in it. -/
def mentions (s pat : String) : Bool := mentionsChars s.toList pat.toList

/-- Fixture experiment: only id and source matter to the claims under test. -/
def mkExp (id : String) (src : Source) : Experiment :=
  { exp_id := id
    Temp := JSVal.null
    Time := JSVal.null
    VOacac := JSVal.null
    DDT := JSVal.null
    OAm := JSVal.null
    Size := JSVal.null
    GSD := JSVal.null
    Squareness := JSVal.null
    source := src }

/-- Fixture recommendation with a given status and timestamp. -/
def mkRec (id : String) (st : Status) (ts : Int) : Recommendation :=
  { rec_id := id
    status := st
    conditions :=
      { Temp := JSVal.undefined, Time := JSVal.undefined, VOacac := JSVal.undefined
        DDT := JSVal.undefined, OAm := JSVal.undefined }
    predictions :=
      { size_mu := JSVal.undefined, size_std := JSVal.undefined
        gsd_mu := JSVal.undefined, gsd_std := JSVal.undefined
        sq_mu := JSVal.undefined, sq_std := JSVal.undefined
        p_feasible := JSVal.undefined }
    target := { size := JSVal.undefined, tolerance := JSVal.undefined }
    timestamp := ts
    completed_timestamp := none
    skip_reason := none }

/-- A dashboard with nothing rendered yet. -/
def dash0 : Dashboard :=
  { totalExperiments := ""
    pendingCount := ""
    completedCount := ""
    modelAccuracy := ""
    pendingBadge := ""
    completedBadge := ""
    skippedBadge := ""
    recPanel := RecPanel.cards []
    expPanel := ExpPanel.rows [] }

/-- `updateRecommendations` with the `'all'` filter on an unsorted state:
built from `state` to exercise the aliasing mutation. -/
def s4 : AppState :=
  { state with
    recommendations := [mkRec "R1" Status.pending 1, mkRec "R2" Status.pending 2]
    currentFilter := RecFilter.all }

/-- State whose source selection is `'manual'` (and no experiments). -/
def s8 : AppState := { state with currentSource := SrcFilter.bySource Source.manual }

/-- The `["E2", "E10", "E1"]` ordering fixture of the spec. -/
def e2e10e1 : AppState :=
  { state with
    experiments := [mkExp "E2" Source.imported, mkExp "E10" Source.imported,
      mkExp "E1" Source.imported] }

def fixtureExpPayload : ExpPayload :=
  ⟨some [mkExp "E1" Source.imported, mkExp "E2" Source.recommendation,
    mkExp "E3" Source.manual]⟩

def fixtureRecPayload : RecPayload :=
  ⟨some [mkRec "R1" Status.pending 1, mkRec "R2" Status.completed 2,
    mkRec "R3" Status.skipped 3]⟩

lemma recFiltered_eq (s : AppState) :
    recFiltered s = s.recommendations.filter (statusMatches s.currentFilter) := by
  cases hf : s.currentFilter with
  | all =>
      have h1 : recFiltered s = s.recommendations := by unfold recFiltered; rw [hf]
      rw [h1, show statusMatches RecFilter.all = fun _ => true from rfl, List.filter_true]
  | byStatus st =>
      have h1 : recFiltered s = s.recommendations.filter (fun r => r.status = st) := by
        unfold recFiltered; rw [hf]
      rw [h1]; rfl

lemma expFiltered_eq (s : AppState) :
    expFiltered s = s.experiments.filter (srcMatches s.currentSource) := by
  cases hf : s.currentSource with
  | all =>
      have h1 : expFiltered s = s.experiments := by unfold expFiltered; rw [hf]
      rw [h1, show srcMatches SrcFilter.all = fun _ => true from rfl, List.filter_true]
  | bySource src =>
      have h1 : expFiltered s = s.experiments.filter (fun e => e.source = src) := by
        unfold expFiltered; rw [hf]
      rw [h1]; rfl

lemma updateRecommendations_fst (s : AppState) (d : Dashboard) :
    (updateRecommendations s d).1 =
      match s.currentFilter with
      | RecFilter.all => { s with recommendations := recSorted s }
      | RecFilter.byStatus _ => s := rfl

lemma updateExperimentsTable_fst (s : AppState) (d : Dashboard) :
    (updateExperimentsTable s d).1 =
      match s.currentSource with
      | SrcFilter.all => { s with experiments := expSorted s }
      | SrcFilter.bySource _ => s := rfl

lemma updateRecommendations_fst_experiments (s : AppState) (d : Dashboard) :
    (updateRecommendations s d).1.experiments = s.experiments := by
  rw [updateRecommendations_fst]; cases s.currentFilter <;> rfl

lemma updateRecommendations_fst_currentFilter (s : AppState) (d : Dashboard) :
    (updateRecommendations s d).1.currentFilter = s.currentFilter := by
  rw [updateRecommendations_fst]; cases hf : s.currentFilter <;> simp [hf]

lemma updateRecommendations_fst_currentSource (s : AppState) (d : Dashboard) :
    (updateRecommendations s d).1.currentSource = s.currentSource := by
  rw [updateRecommendations_fst]; cases s.currentFilter <;> rfl

lemma updateRecommendations_fst_isLoading (s : AppState) (d : Dashboard) :
    (updateRecommendations s d).1.isLoading = s.isLoading := by
  rw [updateRecommendations_fst]; cases s.currentFilter <;> rfl

lemma updateRecommendations_fst_recs_perm (s : AppState) (d : Dashboard) :
    (updateRecommendations s d).1.recommendations ~ s.recommendations := by
  rw [updateRecommendations_fst]
  cases hf : s.currentFilter with
  | all =>
      have h1 : recSorted s ~ recFiltered s := List.perm_insertionSort _ _
      have h2 : recFiltered s = s.recommendations := by simp [recFiltered, hf]
      simpa [h2] using h1
  | byStatus st => exact List.Perm.refl _

lemma updateExperimentsTable_fst_recommendations (s : AppState) (d : Dashboard) :
    (updateExperimentsTable s d).1.recommendations = s.recommendations := by
  rw [updateExperimentsTable_fst]; cases s.currentSource <;> rfl

lemma updateExperimentsTable_fst_currentFilter (s : AppState) (d : Dashboard) :
    (updateExperimentsTable s d).1.currentFilter = s.currentFilter := by
  rw [updateExperimentsTable_fst]; cases s.currentSource <;> rfl

lemma updateExperimentsTable_fst_currentSource (s : AppState) (d : Dashboard) :
    (updateExperimentsTable s d).1.currentSource = s.currentSource := by
  rw [updateExperimentsTable_fst]; cases hf : s.currentSource <;> simp [hf]

lemma updateExperimentsTable_fst_isLoading (s : AppState) (d : Dashboard) :
    (updateExperimentsTable s d).1.isLoading = s.isLoading := by
  rw [updateExperimentsTable_fst]; cases s.currentSource <;> rfl

lemma updateExperimentsTable_fst_exps_perm (s : AppState) (d : Dashboard) :
    (updateExperimentsTable s d).1.experiments ~ s.experiments := by
  rw [updateExperimentsTable_fst]
  cases hf : s.currentSource with
  | all =>
      have h1 : expSorted s ~ expFiltered s := List.perm_insertionSort _ _
      have h2 : expFiltered s = s.experiments := by simp [expFiltered, hf]
      simpa [h2] using h1
  | bySource src => exact List.Perm.refl _

lemma updateRecommendations_recPanel_shape (s : AppState) (d : Dashboard) :
    (updateRecommendations s d).2.recPanel =
      if (recSorted s).isEmpty then RecPanel.emptyState (recEmptyMsg s.currentFilter)
      else RecPanel.cards ((recSorted s).map createRecommendationCard) := by
  unfold updateRecommendations
  by_cases h : (recSorted s).isEmpty <;> simp [h]

lemma updateExperimentsTable_expPanel_shape (s : AppState) (d : Dashboard) :
    (updateExperimentsTable s d).2.expPanel =
      if (expSorted s).isEmpty then ExpPanel.emptyState expEmptyMsg
      else ExpPanel.rows ((expSorted s).map createExperimentRow) := by
  unfold updateExperimentsTable
  by_cases h : (expSorted s).isEmpty <;> simp [h]

lemma updateRecommendations_snd_frame (s : AppState) (d : Dashboard) :
    (updateRecommendations s d).2.expPanel = d.expPanel ∧
    (updateRecommendations s d).2.totalExperiments = d.totalExperiments ∧
    (updateRecommendations s d).2.pendingCount = d.pendingCount ∧
    (updateRecommendations s d).2.completedCount = d.completedCount ∧
    (updateRecommendations s d).2.modelAccuracy = d.modelAccuracy ∧
    (updateRecommendations s d).2.pendingBadge = d.pendingBadge ∧
    (updateRecommendations s d).2.completedBadge = d.completedBadge ∧
    (updateRecommendations s d).2.skippedBadge = d.skippedBadge := by
  unfold updateRecommendations
  by_cases h : (recSorted s).isEmpty <;> simp [h]

lemma updateExperimentsTable_snd_frame (s : AppState) (d : Dashboard) :
    (updateExperimentsTable s d).2.recPanel = d.recPanel ∧
    (updateExperimentsTable s d).2.totalExperiments = d.totalExperiments ∧
    (updateExperimentsTable s d).2.pendingCount = d.pendingCount ∧
    (updateExperimentsTable s d).2.completedCount = d.completedCount ∧
    (updateExperimentsTable s d).2.modelAccuracy = d.modelAccuracy ∧
    (updateExperimentsTable s d).2.pendingBadge = d.pendingBadge ∧
    (updateExperimentsTable s d).2.completedBadge = d.completedBadge ∧
    (updateExperimentsTable s d).2.skippedBadge = d.skippedBadge := by
  unfold updateExperimentsTable
  by_cases h : (expSorted s).isEmpty <;> simp [h]

lemma expSorted_congr {a b : AppState} (h1 : a.experiments = b.experiments)
    (h2 : a.currentSource = b.currentSource) : expSorted a = expSorted b := by
  unfold expSorted expFiltered
  rw [h1, h2]

lemma updateUI_recPanel_shape (s : AppState) (d : Dashboard) :
    (updateUI s d).2.recPanel =
      if (recSorted s).isEmpty then RecPanel.emptyState (recEmptyMsg s.currentFilter)
      else RecPanel.cards ((recSorted s).map createRecommendationCard) := by
  unfold updateUI
  dsimp only
  rw [show ∀ s' d', (updateBadges s' d').recPanel = d'.recPanel from fun _ _ => rfl,
    (updateExperimentsTable_snd_frame _ _).1,
    updateRecommendations_recPanel_shape]

lemma updateUI_expPanel_shape (s : AppState) (d : Dashboard) :
    (updateUI s d).2.expPanel =
      if (expSorted s).isEmpty then ExpPanel.emptyState expEmptyMsg
      else ExpPanel.rows ((expSorted s).map createExperimentRow) := by
  unfold updateUI
  dsimp only
  rw [show ∀ s' d', (updateBadges s' d').expPanel = d'.expPanel from fun _ _ => rfl,
    updateExperimentsTable_expPanel_shape,
    expSorted_congr (updateRecommendations_fst_experiments s _)
      (updateRecommendations_fst_currentSource s _)]

lemma updateUI_fst_exps_perm (s : AppState) (d : Dashboard) :
    (updateUI s d).1.experiments ~ s.experiments := by
  unfold updateUI
  dsimp only
  calc (updateExperimentsTable (updateRecommendations s (updateStats s d)).1
          (updateRecommendations s (updateStats s d)).2).1.experiments
      ~ (updateRecommendations s (updateStats s d)).1.experiments :=
        updateExperimentsTable_fst_exps_perm _ _
    _ = s.experiments := updateRecommendations_fst_experiments _ _

lemma updateUI_fst_recs_perm (s : AppState) (d : Dashboard) :
    (updateUI s d).1.recommendations ~ s.recommendations := by
  unfold updateUI
  dsimp only
  calc (updateExperimentsTable (updateRecommendations s (updateStats s d)).1
          (updateRecommendations s (updateStats s d)).2).1.recommendations
      = (updateRecommendations s (updateStats s d)).1.recommendations :=
        updateExperimentsTable_fst_recommendations _ _
    _ ~ s.recommendations := updateRecommendations_fst_recs_perm _ _

lemma updateUI_fst_isLoading (s : AppState) (d : Dashboard) :
    (updateUI s d).1.isLoading = s.isLoading := by
  unfold updateUI
  dsimp only
  rw [updateExperimentsTable_fst_isLoading, updateRecommendations_fst_isLoading]

/-- Inserting `a` passes only over elements whose key differs from `a`'s
(they compare strictly before it), so a key-class filter sees `a` first. -/
lemma filter_orderedInsert_key {α β : Type} [DecidableEq β]
    (r : α → α → Prop) [DecidableRel r] (key : α → β)
    (hkey : ∀ x y, ¬ r x y → key y ≠ key x) (a : α) (l : List α) (k : β) :
    (List.orderedInsert r a l).filter (fun x => key x = k)
      = (if key a = k then [a] else []) ++ l.filter (fun x => key x = k) := by
  induction l with
  | nil =>
      by_cases ha : key a = k <;> simp [List.orderedInsert, List.filter_cons, ha]
  | cons b t ih =>
      rw [List.orderedInsert]
      by_cases hr : r a b
      · rw [if_pos hr, List.filter_cons]
        by_cases ha : key a = k <;> simp [ha]
      · rw [if_neg hr, List.filter_cons]
        by_cases hb : key b = k
        · have ha : key a ≠ k := fun ha => (hkey a b hr) (hb.trans ha.symm)
          simp [hb, ih, ha, List.filter_cons]
        · simp [hb, ih, List.filter_cons]

/-- Stability of the sort: within one key class the sorted list keeps the
order of the input list. -/
lemma filter_insertionSort_key {α β : Type} [DecidableEq β]
    (r : α → α → Prop) [DecidableRel r] (key : α → β)
    (hkey : ∀ x y, ¬ r x y → key y ≠ key x) (l : List α) (k : β) :
    (List.insertionSort r l).filter (fun x => key x = k)
      = l.filter (fun x => key x = k) := by
  induction l with
  | nil => rfl
  | cons a t ih =>
      rw [List.insertionSort, filter_orderedInsert_key r key hkey, ih, List.filter_cons]
      by_cases ha : key a = k <;> simp [ha]

/-- C1: the rendered experiments table holds exactly the experiments whose
source matches `currentSource` (all of them for `'all'`), in ascending order
of the digits-only integer key of `exp_id` (ids without digits keyed `0`),
ties kept in stable source order; `["E2", "E10", "E1"]` renders as
`["E1", "E2", "E10"]`. -/
theorem experimentsTable_spec (s : AppState) (d : Dashboard) :
    (expSorted s ~ s.experiments.filter (srcMatches s.currentSource)) ∧
    (expSorted s).Pairwise (fun a b => expKey a ≤ expKey b) ∧
    (∀ k : Nat, (expSorted s).filter (fun e => expKey e = k)
      = (s.experiments.filter (srcMatches s.currentSource)).filter (fun e => expKey e = k)) ∧
    ((updateExperimentsTable s d).2.expPanel =
      if (expSorted s).isEmpty then ExpPanel.emptyState expEmptyMsg
      else ExpPanel.rows ((expSorted s).map createExperimentRow)) ∧
    ((expSorted e2e10e1).map (fun e => e.exp_id) = ["E1", "E2", "E10"]) := by
  have hkey : ∀ x y : Experiment, ¬ expBefore x y → expKey y ≠ expKey x := by
    intro x y h
    unfold expBefore at h
    omega
  refine ⟨?_, ?_, ?_, updateExperimentsTable_expPanel_shape s d, by decide⟩
  · rw [← expFiltered_eq]
    exact List.perm_insertionSort _ _
  · exact (List.sorted_insertionSort expBefore (expFiltered s)).imp (fun h => h)
  · intro k
    rw [← expFiltered_eq]
    exact filter_insertionSort_key expBefore expKey hkey (expFiltered s) k

/-- C2: the rendered recommendations list holds exactly the recommendations
whose status matches `currentFilter` (all of them for `'all'`), sorted
descending by timestamp, so every rendered card's status matches the
selected filter. -/
theorem recommendations_spec (s : AppState) (d : Dashboard) :
    (recSorted s ~ s.recommendations.filter (statusMatches s.currentFilter)) ∧
    (recSorted s).Pairwise (fun a b => b.timestamp ≤ a.timestamp) ∧
    ((recSorted s).all (statusMatches s.currentFilter) = true) ∧
    (∀ r : Recommendation, (createRecommendationCard r).status = r.status) ∧
    ((updateRecommendations s d).2.recPanel =
      if (recSorted s).isEmpty then RecPanel.emptyState (recEmptyMsg s.currentFilter)
      else RecPanel.cards ((recSorted s).map createRecommendationCard)) := by
  refine ⟨?_, ?_, ?_, fun r => rfl, updateRecommendations_recPanel_shape s d⟩
  · rw [← recFiltered_eq]
    exact List.perm_insertionSort _ _
  · exact (List.sorted_insertionSort recBefore (recFiltered s)).imp (fun h => h)
  · rw [List.all_eq_true]
    intro x hx
    have hx' : x ∈ recFiltered s := (List.mem_insertionSort _).mp hx
    rw [recFiltered_eq] at hx'
    exact (List.mem_filter.mp hx').2

/-- C9: a recommendation list already sorted descending by timestamp is left
unchanged by the timestamp-descending sort. -/
theorem recSort_idempotent (l : List Recommendation)
    (h : l.Pairwise (fun a b => b.timestamp ≤ a.timestamp)) :
    l.insertionSort recBefore = l :=
  List.Sorted.insertionSort_eq h

theorem recSort_idempotent_witness :
    ([mkRec "B" Status.pending 2, mkRec "A" Status.pending 1].insertionSort recBefore)
      = [mkRec "B" Status.pending 2, mkRec "A" Status.pending 1] :=
  recSort_idempotent _ (by decide)

/-- C3 counterexample: the card formatter has no `isNaN` guard, so a `NaN`
value renders as `"NaN"`, not `"--"`. -/
theorem formatNumCard_nan_cex :
    formatNumCard JSVal.nan 2 = "NaN" ∧ formatNumCard JSVal.nan 2 ≠ "--" := by
  decide

/-- C3 (amended): the experiment-row formatter returns `"--"` for
null/undefined/NaN; the recommendation-card formatter returns `"--"` only
for null/undefined and `"NaN"` for NaN; on numbers both return the
fixed-decimal rendering, giving `"3.14"` for `(3.14159, 2)` and `"0"` for
`(0, 0)`. -/
theorem formatNum_amended (d : Nat) (m : Int) (e : Nat) :
    formatNumRow JSVal.null d = "--" ∧
    formatNumRow JSVal.undefined d = "--" ∧
    formatNumRow JSVal.nan d = "--" ∧
    formatNumCard JSVal.null d = "--" ∧
    formatNumCard JSVal.undefined d = "--" ∧
    formatNumCard JSVal.nan d = "NaN" ∧
    formatNumCard (JSVal.num m e) d = toFixed m e d ∧
    formatNumRow (JSVal.num m e) d = toFixed m e d ∧
    formatNumCard (JSVal.num 314159 5) 2 = "3.14" ∧
    formatNumRow (JSVal.num 314159 5) 2 = "3.14" ∧
    formatNumCard (JSVal.num 0 0) 0 = "0" ∧
    formatNumRow (JSVal.num 0 0) 0 = "0" :=
  ⟨rfl, rfl, rfl, rfl, rfl, rfl, rfl, rfl, by decide, by decide, by decide, by decide⟩

/-- C8 counterexample: with source `'manual'` selected and no matching
experiments, the experiments empty-state text is the fixed string, which
does not mention `"manual"`. -/
theorem expEmpty_not_parameterized_cex :
    (updateExperimentsTable s8 dash0).2.expPanel = ExpPanel.emptyState expEmptyMsg ∧
    mentions expEmptyMsg (srcStr Source.manual) = false := by
  decide

/-- C8 (amended): an empty filtered list renders the empty-state fragment;
the recommendations message is parameterized by the active filter (blank
for `'all'`, mentioning the status otherwise), while the experiments
message is a fixed string that never mentions the selected source. -/
theorem emptyState_amended (s : AppState) (d : Dashboard) :
    ((recSorted s).isEmpty = true →
      (updateRecommendations s d).2.recPanel = RecPanel.emptyState (recEmptyMsg s.currentFilter)) ∧
    (∀ st, mentions (recEmptyMsg (RecFilter.byStatus st)) (statusStr st) = true) ∧
    recFilterLabel RecFilter.all = "" ∧
    ((expSorted s).isEmpty = true →
      (updateExperimentsTable s d).2.expPanel = ExpPanel.emptyState expEmptyMsg) ∧
    (∀ src, mentions expEmptyMsg (srcStr src) = false) := by
  refine ⟨?_, ?_, rfl, ?_, ?_⟩
  · intro h
    rw [updateRecommendations_recPanel_shape, if_pos h]
  · intro st
    cases st <;> decide
  · intro h
    rw [updateExperimentsTable_expPanel_shape, if_pos h]
  · intro src
    cases src <;> decide

theorem emptyState_amended_witness :
    (updateRecommendations state dash0).2.recPanel
        = RecPanel.emptyState (recEmptyMsg state.currentFilter) ∧
    (updateExperimentsTable state dash0).2.expPanel = ExpPanel.emptyState expEmptyMsg :=
  ⟨(emptyState_amended state dash0).1 (by decide),
   (emptyState_amended state dash0).2.2.2.1 (by decide)⟩

/-- C4 counterexample: rendering the recommendations view with filter
`'all'` reorders `state.recommendations` in place (the in-place sort acts
on the state array itself). -/
theorem render_mutates_cex :
    (updateRecommendations s4 dash0).1.recommendations ≠ s4.recommendations := by
  decide

/-- C4 (amended): rendering never changes which elements the data arrays
hold (and leaves the other array and the selection fields untouched); when
the view's selection is not `'all'` the array is fully unchanged, but with
`'all'` selected the in-place sort may reorder the view's own source
array. -/
theorem render_preserves_data_amended (s : AppState) (d : Dashboard) :
    ((updateRecommendations s d).1.recommendations ~ s.recommendations) ∧
    (updateRecommendations s d).1.experiments = s.experiments ∧
    (updateRecommendations s d).1.currentFilter = s.currentFilter ∧
    (updateRecommendations s d).1.currentSource = s.currentSource ∧
    (s.currentFilter ≠ RecFilter.all → (updateRecommendations s d).1 = s) ∧
    ((updateExperimentsTable s d).1.experiments ~ s.experiments) ∧
    (updateExperimentsTable s d).1.recommendations = s.recommendations ∧
    (updateExperimentsTable s d).1.currentFilter = s.currentFilter ∧
    (updateExperimentsTable s d).1.currentSource = s.currentSource ∧
    (s.currentSource ≠ SrcFilter.all → (updateExperimentsTable s d).1 = s) := by
  refine ⟨updateRecommendations_fst_recs_perm s d,
    updateRecommendations_fst_experiments s d,
    updateRecommendations_fst_currentFilter s d,
    updateRecommendations_fst_currentSource s d, ?_,
    updateExperimentsTable_fst_exps_perm s d,
    updateExperimentsTable_fst_recommendations s d,
    updateExperimentsTable_fst_currentFilter s d,
    updateExperimentsTable_fst_currentSource s d, ?_⟩
  · intro h
    rw [updateRecommendations_fst]
    cases hf : s.currentFilter with
    | all => exact absurd hf h
    | byStatus st => rfl
  · intro h
    rw [updateExperimentsTable_fst]
    cases hf : s.currentSource with
    | all => exact absurd hf h
    | bySource src => rfl

theorem render_preserves_data_amended_witness :
    (updateRecommendations state dash0).1 = state ∧
    (updateExperimentsTable s8 dash0).1 = s8 :=
  ⟨(render_preserves_data_amended state dash0).2.2.2.2.1 (by decide),
   (render_preserves_data_amended s8 dash0).2.2.2.2.2.2.2.2.2 (by decide)⟩

/-- C5: `loadData` fails as a unit — any non-ok response or unparseable body
commits nothing to the state and renders the error fragment in both panels;
on success the (default-empty) payload arrays are committed and neither
panel is the error fragment, even for empty payloads. -/
theorem loadData_atomic_spec (s : AppState) (d : Dashboard)
    (er : FetchResult ExpPayload) (rr : FetchResult RecPayload) :
    ((er.ok = false ∨ rr.ok = false ∨ er.json = none ∨ rr.json = none) →
      (loadData s d er rr).1 = s ∧
      (loadData s d er rr).2.recPanel = RecPanel.errorState loadErrorMsg ∧
      (loadData s d er rr).2.expPanel = ExpPanel.errorState loadErrorMsg) ∧
    (∀ ep rp, er = ⟨true, some ep⟩ → rr = ⟨true, some rp⟩ →
      ((loadData s d er rr).1.experiments ~ ep.experiments.getD []) ∧
      ((loadData s d er rr).1.recommendations ~ rp.recommendations.getD []) ∧
      (ep.experiments = none → (loadData s d er rr).1.experiments = []) ∧
      (rp.recommendations = none → (loadData s d er rr).1.recommendations = []) ∧
      (loadData s d er rr).1.isLoading = false ∧
      (∀ m, (loadData s d er rr).2.recPanel ≠ RecPanel.errorState m) ∧
      (∀ m, (loadData s d er rr).2.expPanel ≠ ExpPanel.errorState m)) := by
  constructor
  · rcases er with ⟨eok, ejson⟩
    rcases rr with ⟨rok, rjson⟩
    intro h
    cases eok with
    | false => unfold loadData; simp [showError]
    | true =>
      cases rok with
      | false => unfold loadData; simp [showError]
      | true =>
        rcases h with h | h | h | h
        · simp at h
        · simp at h
        · simp only at h; subst h; unfold loadData; cases rjson <;> simp [showError]
        · simp only at h; subst h; unfold loadData; cases ejson <;> simp [showError]
  · intro ep rp he hr
    subst he
    subst hr
    have hl : loadData s d ⟨true, some ep⟩ ⟨true, some rp⟩
        = updateUI
            { s with
              experiments := ep.experiments.getD []
              recommendations := rp.recommendations.getD []
              isLoading := false } d := rfl
    rw [hl]
    set s' : AppState :=
      { s with
        experiments := ep.experiments.getD []
        recommendations := rp.recommendations.getD []
        isLoading := false } with hs'
    have hexp : (updateUI s' d).1.experiments ~ ep.experiments.getD [] :=
      updateUI_fst_exps_perm s' d
    have hrec : (updateUI s' d).1.recommendations ~ rp.recommendations.getD [] :=
      updateUI_fst_recs_perm s' d
    refine ⟨hexp, hrec, ?_, ?_, updateUI_fst_isLoading s' d, ?_, ?_⟩
    · intro hnone
      rw [hnone] at hexp
      exact List.perm_nil.mp hexp
    · intro hnone
      rw [hnone] at hrec
      exact List.perm_nil.mp hrec
    · intro m
      rw [updateUI_recPanel_shape]
      by_cases hc : (recSorted s').isEmpty <;> simp [hc]
    · intro m
      rw [updateUI_expPanel_shape]
      by_cases hc : (expSorted s').isEmpty <;> simp [hc]

theorem loadData_atomic_spec_witness :
    (loadData state dash0 ⟨false, none⟩ ⟨true, some fixtureRecPayload⟩).1 = state ∧
    (loadData state dash0 ⟨false, none⟩ ⟨true, some fixtureRecPayload⟩).2.recPanel
      = RecPanel.errorState loadErrorMsg ∧
    (loadData state dash0 ⟨true, some ⟨none⟩⟩ ⟨true, some ⟨none⟩⟩).1.experiments = [] :=
  ⟨((loadData_atomic_spec state dash0 ⟨false, none⟩ ⟨true, some fixtureRecPayload⟩).1
      (Or.inl rfl)).1,
   ((loadData_atomic_spec state dash0 ⟨false, none⟩ ⟨true, some fixtureRecPayload⟩).1
      (Or.inl rfl)).2.1,
   ((loadData_atomic_spec state dash0 ⟨true, some ⟨none⟩⟩ ⟨true, some ⟨none⟩⟩).2
      ⟨none⟩ ⟨none⟩ rfl rfl).2.2.1 rfl⟩

/-- C6: the stats panel shows the experiment count, the pending/completed
recommendation counts and the `imported/recommendation/manual` breakdown;
the badges show the per-status counts; on the 3+3 fixture this gives
total 3, pending 1, completed 1, breakdown `"1/1/1"` and badges 1/1/1. -/
theorem stats_badges_spec (s : AppState) (d : Dashboard) :
    (updateStats s d).totalExperiments = toString s.experiments.length ∧
    (updateStats s d).pendingCount
      = toString (s.recommendations.filter (fun r => r.status = Status.pending)).length ∧
    (updateStats s d).completedCount
      = toString (s.recommendations.filter (fun r => r.status = Status.completed)).length ∧
    (updateStats s d).modelAccuracy
      = toString (s.experiments.filter (fun e => e.source = Source.imported)).length ++ "/" ++
        toString (s.experiments.filter (fun e => e.source = Source.recommendation)).length ++ "/" ++
        toString (s.experiments.filter (fun e => e.source = Source.manual)).length ∧
    (updateBadges s d).pendingBadge
      = toString (s.recommendations.filter (fun r => r.status = Status.pending)).length ∧
    (updateBadges s d).completedBadge
      = toString (s.recommendations.filter (fun r => r.status = Status.completed)).length ∧
    (updateBadges s d).skippedBadge
      = toString (s.recommendations.filter (fun r => r.status = Status.skipped)).length ∧
    (loadData state dash0 ⟨true, some fixtureExpPayload⟩
      ⟨true, some fixtureRecPayload⟩).2.totalExperiments = "3" ∧
    (loadData state dash0 ⟨true, some fixtureExpPayload⟩
      ⟨true, some fixtureRecPayload⟩).2.pendingCount = "1" ∧
    (loadData state dash0 ⟨true, some fixtureExpPayload⟩
      ⟨true, some fixtureRecPayload⟩).2.completedCount = "1" ∧
    (loadData state dash0 ⟨true, some fixtureExpPayload⟩
      ⟨true, some fixtureRecPayload⟩).2.modelAccuracy = "1/1/1" ∧
    (loadData state dash0 ⟨true, some fixtureExpPayload⟩
      ⟨true, some fixtureRecPayload⟩).2.pendingBadge = "1" ∧
    (loadData state dash0 ⟨true, some fixtureExpPayload⟩
      ⟨true, some fixtureRecPayload⟩).2.completedBadge = "1" ∧
    (loadData state dash0 ⟨true, some fixtureExpPayload⟩
      ⟨true, some fixtureRecPayload⟩).2.skippedBadge = "1" :=
  ⟨rfl, rfl, rfl, rfl, rfl, rfl, rfl, by decide, by decide, by decide, by decide,
   by decide, by decide, by decide⟩

/-- C7: a recommendation filter-tab click sets `currentFilter` and
re-renders only the recommendations list (experiments table, stats and
badges untouched); a source tab click sets `currentSource` and re-renders
only the experiments table. -/
theorem tab_click_frame_spec (s : AppState) (d : Dashboard)
    (f : RecFilter) (src : SrcFilter) :
    (filterTabClick s d f).1.currentFilter = f ∧
    (filterTabClick s d f).1.currentSource = s.currentSource ∧
    (filterTabClick s d f).1.experiments = s.experiments ∧
    (filterTabClick s d f).2.expPanel = d.expPanel ∧
    (filterTabClick s d f).2.totalExperiments = d.totalExperiments ∧
    (filterTabClick s d f).2.pendingCount = d.pendingCount ∧
    (filterTabClick s d f).2.completedCount = d.completedCount ∧
    (filterTabClick s d f).2.modelAccuracy = d.modelAccuracy ∧
    (filterTabClick s d f).2.pendingBadge = d.pendingBadge ∧
    (filterTabClick s d f).2.completedBadge = d.completedBadge ∧
    (filterTabClick s d f).2.skippedBadge = d.skippedBadge ∧
    (sourceTabClick s d src).1.currentSource = src ∧
    (sourceTabClick s d src).1.currentFilter = s.currentFilter ∧
    (sourceTabClick s d src).1.recommendations = s.recommendations ∧
    (sourceTabClick s d src).2.recPanel = d.recPanel ∧
    (sourceTabClick s d src).2.totalExperiments = d.totalExperiments ∧
    (sourceTabClick s d src).2.pendingCount = d.pendingCount ∧
    (sourceTabClick s d src).2.completedCount = d.completedCount ∧
    (sourceTabClick s d src).2.modelAccuracy = d.modelAccuracy ∧
    (sourceTabClick s d src).2.pendingBadge = d.pendingBadge ∧
    (sourceTabClick s d src).2.completedBadge = d.completedBadge ∧
    (sourceTabClick s d src).2.skippedBadge = d.skippedBadge := by
  have hrf := updateRecommendations_snd_frame { s with currentFilter := f } d
  have hef := updateExperimentsTable_snd_frame { s with currentSource := src } d
  exact ⟨updateRecommendations_fst_currentFilter _ d,
    updateRecommendations_fst_currentSource _ d,
    updateRecommendations_fst_experiments _ d,
    hrf.1, hrf.2.1, hrf.2.2.1, hrf.2.2.2.1, hrf.2.2.2.2.1, hrf.2.2.2.2.2.1,
    hrf.2.2.2.2.2.2.1, hrf.2.2.2.2.2.2.2,
    updateExperimentsTable_fst_currentSource _ d,
    updateExperimentsTable_fst_currentFilter _ d,
    updateExperimentsTable_fst_recommendations _ d,
    hef.1, hef.2.1, hef.2.2.1, hef.2.2.2.1, hef.2.2.2.2.1, hef.2.2.2.2.2.1,
    hef.2.2.2.2.2.2.1, hef.2.2.2.2.2.2.2⟩

/-- C10: before any interaction the selection is `currentFilter = 'pending'`
and `currentSource = 'all'`, so the first render after a successful load
shows only pending recommendation cards while the experiments table shows
the rows of every loaded experiment. -/
theorem initial_state_spec :
    state.currentFilter = RecFilter.byStatus Status.pending ∧
    state.currentSource = SrcFilter.all ∧
    ∀ (d : Dashboard) (ep : ExpPayload) (rp : RecPayload),
      ((recPanelCards (loadData state d ⟨true, some ep⟩ ⟨true, some rp⟩).2.recPanel).all
        (fun c => c.status = Status.pending)) = true ∧
      ((expPanelRows (loadData state d ⟨true, some ep⟩ ⟨true, some rp⟩).2.expPanel) ~
        (ep.experiments.getD []).map createExperimentRow) := by
  refine ⟨rfl, rfl, ?_⟩
  intro d ep rp
  have hl : loadData state d ⟨true, some ep⟩ ⟨true, some rp⟩
      = updateUI
          { state with
            experiments := ep.experiments.getD []
            recommendations := rp.recommendations.getD []
            isLoading := false } d := rfl
  rw [hl]
  set s' : AppState :=
    { state with
      experiments := ep.experiments.getD []
      recommendations := rp.recommendations.getD []
      isLoading := false } with hs'
  constructor
  · rw [updateUI_recPanel_shape]
    by_cases hc : (recSorted s').isEmpty
    · simp [hc, recPanelCards]
    · rw [if_neg hc]
      simp only [recPanelCards, List.all_eq_true]
      intro c hc2
      obtain ⟨r, hr, rfl⟩ := List.mem_map.mp hc2
      have hr' : r ∈ recFiltered s' := (List.mem_insertionSort _).mp hr
      rw [recFiltered_eq] at hr'
      have h2 := (List.mem_filter.mp hr').2
      have h3 : r.status = Status.pending := of_decide_eq_true h2
      simpa [createRecommendationCard] using h3
  · rw [updateUI_expPanel_shape]
    have hfe : expFiltered s' = ep.experiments.getD [] := rfl
    by_cases hc : (expSorted s').isEmpty
    · rw [if_pos hc]
      have h0 : expSorted s' = [] := List.isEmpty_iff.mp hc
      have hp : expSorted s' ~ expFiltered s' := List.perm_insertionSort _ _
      rw [h0, hfe] at hp
      have h4 : ep.experiments.getD [] = [] := List.perm_nil.mp hp.symm
      simp [expPanelRows, h4]
    · rw [if_neg hc]
      simp only [expPanelRows]
      refine List.Perm.map _ ?_
      rw [← hfe]
      exact List.perm_insertionSort _ _
